import Mathlib

/-!
Verification of the lending & access-control engine of the multi-branch
book-lending catalog (FastAPI + Supabase service under `api/`).

The Python routers are shallowly embedded as pure Lean functions:
  * the relational store is a value (lists of rows); `select ... eq`
    becomes `List.filter` / `List.find?`, `insert` appends a row,
    `update` maps over the rows;
  * a `.single()` select is modelled as `List.find?` (the routers
    themselves treat a missing row as `response.data` being empty:
    `if not response.data: raise 404`);
  * `raise HTTPException(status, detail)` becomes returning
    `Except.error ⟨status, detail⟩`; endpoints that write return the
    resulting store alongside the `Except`, so that a failing call's
    frame (no row written) is visible in the theorems;
  * dates and timestamps are day/instant counts (`Nat`) ordered as the
    ISO-8601 strings the code compares are;
  * roles are the raw strings the code branches on.
-/

namespace Library

/-- An HTTP error as the routers raise it: `HTTPException(status, detail)`. -/
structure HTTPError where
  status : Nat
  detail : String
deriving DecidableEq

/-- The actor dict produced by `auth.get_current_user`, as the routers
consume it: `user["id"]` and `user["role"]` (a raw string). -/
structure User where
  id : Nat
  role : String
deriving DecidableEq

/-- `auth.require_branch_owner`: role must be `branch_owner` or `admin`,
else 403. -/
def require_branch_owner (u : User) : Except HTTPError User :=
  if u.role == "branch_owner" || u.role == "admin" then .ok u
  else .error ⟨403, "Branch owner access required"⟩

/-! ## Loans listing (`routers/loans.py`, `list_loans`)

The select joins each loan row with its copy's branch, so a fetched row
carries `loan["copy"]["branch"]["id"]` and `["owner_id"]` inline. -/

/-- A row of `list_loans`' select: loan fields plus the joined
`copy.branch` fields the handler reads. -/
structure JoinedLoan where
  id : Nat
  copy_id : Nat
  borrower_id : Nat
  due_date : Nat
  borrowed_at : Nat
  returned_at : Option Nat
  branch_id : Nat
  branch_owner_id : Nat
deriving DecidableEq

/-- The query parameters of `list_loans`. -/
structure LoanFilters where
  borrower_id : Option Nat
  branch_id : Option Nat
  status : Option String
  limit : Nat
  offset : Nat
deriving DecidableEq

/-- The role-dependent `eq` filters applied to the loans query before it
runs: a borrower is locked to `borrower_id == user["id"]`; the other two
roles apply the caller-supplied `borrower_id` filter if present. -/
def roleQuery (u : User) (f : LoanFilters) (rows : List JoinedLoan) : List JoinedLoan :=
  if u.role == "borrower" then
    rows.filter (fun l => l.borrower_id == u.id)
  else if u.role == "branch_owner" then
    match f.borrower_id with
    | some b => rows.filter (fun l => l.borrower_id == b)
    | none => rows
  else
    match f.borrower_id with
    | some b => rows.filter (fun l => l.borrower_id == b)
    | none => rows

/-- Stable insertion into a list kept sorted by `borrowed_at` descending:
the element goes before the first strictly-smaller key. -/
def insertDesc (x : JoinedLoan) : List JoinedLoan → List JoinedLoan
  | [] => [x]
  | y :: ys => if x.borrowed_at ≤ y.borrowed_at then y :: insertDesc x ys else x :: y :: ys

/-- `order("borrowed_at", desc=True)`: sort by `borrowed_at` descending. -/
def sortDesc : List JoinedLoan → List JoinedLoan
  | [] => []
  | x :: xs => insertDesc x (sortDesc xs)

/-- `.range(offset, offset + limit - 1)`: the page of `limit` rows
starting at `offset` of the ordered result. -/
def pageRows (f : LoanFilters) (rows : List JoinedLoan) : List JoinedLoan :=
  ((sortDesc rows).drop f.offset).take f.limit

/-- The post-fetch branch scope: a `branch_owner` keeps only loans whose
copy's branch they own (the code's condition is
`user["role"] == "branch_owner" and not user.get("role") == "admin"`). -/
def ownerScope (u : User) (rows : List JoinedLoan) : List JoinedLoan :=
  if u.role == "branch_owner" && !(u.role == "admin") then
    rows.filter (fun l => l.branch_owner_id == u.id)
  else rows

/-- The post-fetch `branch_id` filter, applied when supplied. -/
def branchFilter (f : LoanFilters) (rows : List JoinedLoan) : List JoinedLoan :=
  match f.branch_id with
  | some b => rows.filter (fun l => l.branch_id == b)
  | none => rows

/-- The post-fetch status filter of `list_loans`:
`active` keeps rows with `returned_at is None`; `overdue` keeps rows with
`returned_at is None and due_date < str(today)`; `returned` keeps rows
with `returned_at is not None`; anything else keeps all rows. -/
def filterByStatus (status : Option String) (today : Nat) (loans : List JoinedLoan) :
    List JoinedLoan :=
  if status == some "active" then
    loans.filter (fun l => l.returned_at == none)
  else if status == some "overdue" then
    loans.filter (fun l => l.returned_at == none && decide (l.due_date < today))
  else if status == some "returned" then
    loans.filter (fun l => l.returned_at != none)
  else loans

/-- `GET /loans` (`list_loans`), after `require_auth`: role-scoped query,
order + pagination, branch-owner post-filter, `branch_id` post-filter,
status post-filter. -/
def list_loans (u : User) (f : LoanFilters) (today : Nat) (rows : List JoinedLoan) :
    List JoinedLoan :=
  filterByStatus f.status today (branchFilter f (ownerScope u (pageRows f (roleQuery u f rows))))

/-! ## Single loan read (`routers/loans.py`, `get_loan`) -/

/-- `GET /loans/{loan_id}` (`get_loan`), after `require_auth`: fetch the
row, 404 when absent, then allow iff the actor is the loan's borrower,
the copy's branch owner, or an admin; otherwise 403. -/
def get_loan (u : User) (loan_id : Nat) (rows : List JoinedLoan) :
    Except HTTPError JoinedLoan :=
  match rows.find? (fun l => l.id == loan_id) with
  | none => .error ⟨404, "Loan not found"⟩
  | some loan =>
    let is_borrower := loan.borrower_id == u.id
    let is_branch_owner := loan.branch_owner_id == u.id
    let is_admin := u.role == "admin"
    if is_borrower || is_branch_owner || is_admin then .ok loan
    else .error ⟨403, "Access denied"⟩

/-! ## Loan mutations (`routers/loans.py`, `create_loan` / `return_loan`)

These endpoints read and write several tables, so they take and return a
`DB` value; an endpoint that raises before its write returns the store
unchanged. -/

/-- A stored loan row (`loans` table): `returned_at` is the nullable
return timestamp, set only by `return_loan`. -/
structure Loan where
  id : Nat
  copy_id : Nat
  borrower_id : Nat
  due_date : Nat
  returned_at : Option Nat
  notes : Option String
deriving DecidableEq

/-- A stored copy row (`copies` table), the fields the loan endpoints
read. -/
structure Copy where
  id : Nat
  branch_id : Nat
deriving DecidableEq

/-- A stored branch row (`branches` table): `owner_id` is the owning
actor. -/
structure Branch where
  id : Nat
  owner_id : Nat
deriving DecidableEq

/-- The relational store as the loan endpoints see it; `next_id` models
the store's id generator for inserted rows, `profiles` the profile ids
(`create_loan` only checks a borrower profile row exists). -/
structure DB where
  loans : List Loan
  copies : List Copy
  branches : List Branch
  profiles : List Nat
  next_id : Nat
deriving DecidableEq

/-- The request body of `POST /loans`. -/
structure LoanCreate where
  copy_id : Nat
  borrower_id : Nat
  due_date : Nat
  notes : Option String
deriving DecidableEq

/-- The pre-insert reads of `create_loan`, in the code's order: copy
fetch (404), joined-branch ownership gate (403, bypassed by admin),
active-loan select (409 when any row for the copy has a null
`returned_at`), borrower fetch (404). `none` means every check passed.
A dangling `copy.branch` join would crash the handler (500 via the
global exception handler). -/
def create_loan_check (u : User) (body : LoanCreate) (db : DB) : Option HTTPError :=
  match db.copies.find? (fun c => c.id == body.copy_id) with
  | none => some ⟨404, "Copy not found"⟩
  | some c =>
    match db.branches.find? (fun b => b.id == c.branch_id) with
    | none => some ⟨500, "branch join failed"⟩
    | some br =>
      if br.owner_id != u.id && u.role != "admin" then
        some ⟨403, "You don't own this branch"⟩
      else if !(db.loans.filter (fun l => l.copy_id == body.copy_id && l.returned_at == none)).isEmpty then
        some ⟨409, "This copy is already on loan"⟩
      else if (db.profiles.filter (fun p => p == body.borrower_id)).isEmpty then
        some ⟨404, "Borrower not found"⟩
      else none

/-- `supabase.table("loans").insert(loan_data)`: appends a row with a
null `returned_at` (the column's default) and returns it. The insert is
unconditional — nothing about the existing rows is consulted. -/
def create_loan_insert (body : LoanCreate) (db : DB) : Loan × DB :=
  let newLoan : Loan :=
    ⟨db.next_id, body.copy_id, body.borrower_id, body.due_date, none, body.notes⟩
  (newLoan, { db with loans := db.loans ++ [newLoan], next_id := db.next_id + 1 })

/-- `POST /loans` (`create_loan`) past the `require_branch_owner` gate:
copy fetch, ownership gate, active-loan check, borrower fetch, then the
insert. -/
def create_loan (u : User) (body : LoanCreate) (db : DB) : Except HTTPError Loan × DB :=
  match db.copies.find? (fun c => c.id == body.copy_id) with
  | none => (.error ⟨404, "Copy not found"⟩, db)
  | some c =>
    match db.branches.find? (fun b => b.id == c.branch_id) with
    | none => (.error ⟨500, "branch join failed"⟩, db)
    | some br =>
      if br.owner_id != u.id && u.role != "admin" then
        (.error ⟨403, "You don't own this branch"⟩, db)
      else if !(db.loans.filter (fun l => l.copy_id == body.copy_id && l.returned_at == none)).isEmpty then
        (.error ⟨409, "This copy is already on loan"⟩, db)
      else if (db.profiles.filter (fun p => p == body.borrower_id)).isEmpty then
        (.error ⟨404, "Borrower not found"⟩, db)
      else
        let inserted := create_loan_insert body db
        (.ok inserted.1, inserted.2)

/-- `POST /loans` including its `Depends(require_branch_owner)` gate. -/
def create_loan_endpoint (u : User) (body : LoanCreate) (db : DB) :
    Except HTTPError Loan × DB :=
  match require_branch_owner u with
  | .error e => (.error e, db)
  | .ok _ => create_loan u body db

/-- `PUT /loans/{loan_id}/return` (`return_loan`) past the
`require_branch_owner` gate: loan fetch (404), already-returned check
(400, raised before the ownership data is read), joined-branch ownership
gate (403, bypassed by admin), then the update setting `returned_at` to
the call's current time and, when supplied, the notes. -/
def return_loan (u : User) (loan_id : Nat) (notes : Option String) (now : Nat)
    (db : DB) : Except HTTPError Loan × DB :=
  match db.loans.find? (fun l => l.id == loan_id) with
  | none => (.error ⟨404, "Loan not found"⟩, db)
  | some loan =>
    if loan.returned_at != none then
      (.error ⟨400, "Loan already returned"⟩, db)
    else
      match db.copies.find? (fun c => c.id == loan.copy_id) with
      | none => (.error ⟨500, "branch join failed"⟩, db)
      | some c =>
        match db.branches.find? (fun b => b.id == c.branch_id) with
        | none => (.error ⟨500, "branch join failed"⟩, db)
        | some br =>
          if br.owner_id != u.id && u.role != "admin" then
            (.error ⟨403, "You don't own this branch"⟩, db)
          else
            let updated : Loan :=
              { loan with
                returned_at := some now
                notes := match notes with | some n => some n | none => loan.notes }
            (.ok updated,
             { db with loans := db.loans.map (fun l => if l.id == loan_id then updated else l) })

/-- `PUT /loans/{loan_id}/return` including its
`Depends(require_branch_owner)` gate. -/
def return_loan_endpoint (u : User) (loan_id : Nat) (notes : Option String)
    (now : Nat) (db : DB) : Except HTTPError Loan × DB :=
  match require_branch_owner u with
  | .error e => (.error e, db)
  | .ok _ => return_loan u loan_id notes now db

/-! ## Copy availability (`routers/copies.py`, `list_copies` / `get_copy`) -/

/-- A row of the `loans(id, returned_at)` join on a copy. -/
structure CopyLoan where
  id : Nat
  returned_at : Option Nat
deriving DecidableEq

/-- A copy row with its joined loans, as `list_copies` / `get_copy`
post-process it. -/
structure CopyRow where
  id : Nat
  loans : List CopyLoan
deriving DecidableEq

/-- The `next(...)` scan of both handlers: the first joined loan with
`returned_at is None`, or none — it never raises, even when several
loans have a null return timestamp. -/
def copy_active_loan (c : CopyRow) : Option CopyLoan :=
  c.loans.find? (fun l => l.returned_at == none)

/-- `copy["is_available"] = active_loan is None`. -/
def copy_is_available (c : CopyRow) : Bool :=
  (copy_active_loan c).isNone

/-- The availability post-processing loop of `list_copies`: each fetched
copy is annotated with its computed `is_available`. -/
def annotate_copies (copies : List CopyRow) : List (CopyRow × Bool) :=
  copies.map (fun c => (c, copy_is_available c))

/-- `GET /copies`' availability stage: annotate every copy, then, when
the `available` query parameter is supplied, keep the copies whose
computed flag equals it. -/
def list_copies_availability (available : Option Bool) (copies : List CopyRow) :
    List (CopyRow × Bool) :=
  let annotated := annotate_copies copies
  match available with
  | some b => annotated.filter (fun p => p.2 == b)
  | none => annotated

/-! ## Copy creation and Book enrichment
(`routers/copies.py` `create_copy`, `services/isbn_lookup.py`
`lookup_isbn`) -/

/-- A stored book row (`books` table): the fields `create_copy` reads
and writes (`title` stands for the enrichment metadata columns). -/
structure Book where
  id : Nat
  isbn : Option String
  title : Option String
deriving DecidableEq

/-- A stored copy row as `create_copy` inserts it. -/
structure CopyRecord where
  id : Nat
  book_id : Nat
  branch_id : Nat
  added_by : Nat
deriving DecidableEq

/-- The store as `create_copy` sees it. -/
structure CopiesDB where
  books : List Book
  branches : List Branch
  copies : List CopyRecord
  next_id : Nat
deriving DecidableEq

/-- The request body of `POST /copies`. -/
structure CopyCreate where
  book_id : Option Nat
  branch_id : Nat
  isbn : Option String
deriving DecidableEq

/-- What one of the external catalogs returns for a (cleaned) ISBN. -/
structure ExternalMeta where
  title : Option String
deriving DecidableEq

/-- `isbn.replace("-", "").replace(" ", "").strip()` at the top of
`lookup_isbn`: the ISBN with hyphens and spaces removed. -/
def normalize_isbn (s : String) : String :=
  ⟨s.data.filter (fun c => !(c == '-') && !(c == ' '))⟩

/-- `lookup_isbn`: clean the ISBN, then query the external catalogs
(Open Library, falling back to Google Books), modelled as the oracle; on
a hit both catalogs return a metadata dict whose `"isbn"` field is the
cleaned ISBN. -/
def lookup_isbn (oracle : String → Option ExternalMeta) (isbn : String) :
    Option Book :=
  let cleaned := normalize_isbn isbn
  match oracle cleaned with
  | none => none
  | some m => some ⟨0, some cleaned, m.title⟩

/-- `POST /copies` (`create_copy`) past the `require_branch_owner` gate.
Returns the response, the resulting store, and how many times the
enrichment lookup ran. When `book_id` is absent and an ISBN is supplied:
select books with `isbn == copy.isbn` (the raw, uncleaned string); reuse
the first hit, else run `lookup_isbn` (400 when it finds nothing,
otherwise insert the Book from its metadata). Then: 400 when neither
`book_id` nor ISBN was given, branch fetch (404), ownership gate (403,
bypassed by admin), and the copy insert. The Book insert precedes the
branch checks, so it persists even when they fail. -/
def create_copy (oracle : String → Option ExternalMeta) (u : User)
    (body : CopyCreate) (db : CopiesDB) :
    Except HTTPError CopyRecord × CopiesDB × Nat :=
  let step : Except HTTPError (Option Nat) × CopiesDB × Nat :=
    match body.book_id with
    | some bid => (.ok (some bid), db, 0)
    | none =>
      match body.isbn with
      | none => (.ok none, db, 0)
      | some i =>
        match db.books.filter (fun b => b.isbn == some i) with
        | b :: _ => (.ok (some b.id), db, 0)
        | [] =>
          match lookup_isbn oracle i with
          | none =>
            (.error ⟨400, "Could not find metadata for ISBN"⟩, db, 1)
          | some meta =>
            let newBook : Book := ⟨db.next_id, meta.isbn, meta.title⟩
            (.ok (some newBook.id),
             { db with books := db.books ++ [newBook], next_id := db.next_id + 1 }, 1)
  match step with
  | (.error e, db1, k) => (.error e, db1, k)
  | (.ok bookId, db1, k) =>
    match bookId with
    | none => (.error ⟨400, "Either book_id or isbn must be provided"⟩, db1, k)
    | some bid =>
      match db1.branches.find? (fun b => b.id == body.branch_id) with
      | none => (.error ⟨404, "Branch not found"⟩, db1, k)
      | some br =>
        if br.owner_id != u.id && u.role != "admin" then
          (.error ⟨403, "You don't own this branch"⟩, db1, k)
        else
          let newCopy : CopyRecord := ⟨db1.next_id, bid, body.branch_id, u.id⟩
          (.ok newCopy,
           { db1 with copies := db1.copies ++ [newCopy], next_id := db1.next_id + 1 }, k)

/-! ## Identity resolution (`auth.py`, `get_current_user`)

The credential verifier (`supabase.auth.get_user`) and the profile store
are collaborators: the verifier is an oracle, profiles a list of rows.
A `.single()` profile select is modelled as `List.find?`, the row or
nothing — the convention every router of this code follows
(`if not response.data` / `if profile.data else`). -/

/-- A profile row (`profiles` table): `role` and `name` may be absent
(the code reads them with `.get`). -/
structure Profile where
  id : Nat
  role : Option String
  name : Option String
deriving DecidableEq

/-- The outcome of `supabase.auth.get_user(token)`: an exception, a
response with no user, or the verified identity. -/
inductive VerifyResult where
  | err : VerifyResult
  | noUser : VerifyResult
  | ok (id : Nat) (email : Option String) : VerifyResult
deriving DecidableEq

/-- The actor dict `get_current_user` builds. -/
structure AuthedUser where
  id : Nat
  email : Option String
  role : String
  name : Option String
deriving DecidableEq

/-- `authorization.startswith("Bearer ")`. -/
def isBearer : List Char → Bool
  | 'B' :: 'e' :: 'a' :: 'r' :: 'e' :: 'r' :: ' ' :: _ => true
  | _ => false

/-- `authorization[7:]`: the token after the `Bearer ` marker. -/
def bearerToken (s : String) : String :=
  ⟨s.data.drop 7⟩

/-- `auth.get_current_user`: no header means anonymous (`.ok none`); a
header without the `Bearer ` marker is 401; a verifier exception is 401;
a response without a user falls through to anonymous; a verified
identity is resolved against the profile store, the role defaulting to
`borrower` when the profile row or its `role` field is missing. -/
def get_current_user (verify : String → VerifyResult) (profiles : List Profile)
    (authorization : Option String) : Except HTTPError (Option AuthedUser) :=
  match authorization with
  | none => .ok none
  | some auth =>
    if !(isBearer auth.data) then .error ⟨401, "Invalid authorization header"⟩
    else
      match verify (bearerToken auth) with
      | .err => .error ⟨401, "Invalid or expired token"⟩
      | .noUser => .ok none
      | .ok uid email =>
        match profiles.find? (fun p => p.id == uid) with
        | none => .ok (some ⟨uid, email, "borrower", none⟩)
        | some p => .ok (some ⟨uid, email, p.role.getD "borrower", p.name⟩)

/-- `loans.filter` count of a copy's rows with a null `returned_at` —
invariant I1 says this never exceeds 1. -/
def activeCount (db : DB) (cid : Nat) : Nat :=
  (db.loans.filter (fun l => l.copy_id == cid && l.returned_at == none)).length

/-! ## Concrete stores and requests used to evaluate the theorems -/

/-- A branch owner actor (id 5). -/
def uOwner : User := ⟨5, "branch_owner"⟩

/-- A store whose copy 1 (at branch 1, owned by actor 5) already has an
active loan (row 0, `returned_at` null); profile 2 exists. -/
def dbConflict : DB := ⟨[⟨0, 1, 9, 5, none, none⟩], [⟨1, 1⟩], [⟨1, 5⟩], [2], 10⟩

/-- A checkout request for copy 1 to borrower 2. -/
def reqLoan : LoanCreate := ⟨1, 2, 30, none⟩

/-- Like `dbConflict` but with no loan rows: copy 1 is free. -/
def dbFree : DB := ⟨[], [⟨1, 1⟩], [⟨1, 5⟩], [2], 10⟩

/-- A store whose loan 0 (on copy 1, branch 1 owned by actor 5) is
already returned at instant 3. -/
def dbReturned : DB := ⟨[⟨0, 1, 9, 5, some 3, none⟩], [⟨1, 1⟩], [⟨1, 5⟩], [9], 10⟩

/-- Like `dbReturned` but branch 1 is owned by actor 7, not actor 5. -/
def dbReturnedForeign : DB := ⟨[⟨0, 1, 9, 5, some 3, none⟩], [⟨1, 1⟩], [⟨1, 7⟩], [9], 10⟩

/-- An active loan row whose due date (day 0) has passed by day 1. -/
def overdueRow : JoinedLoan := ⟨1, 1, 2, 0, 0, none, 1, 5⟩

/-- Two active loan rows at branch 1 (owner 5) for borrowers 1 and 2. -/
def rowsTwoBorrowers : List JoinedLoan :=
  [⟨1, 1, 1, 10, 100, none, 1, 5⟩, ⟨2, 1, 2, 10, 90, none, 1, 5⟩]

/-- A loan borrowed by actor 5 at a branch owned by actor 7. -/
def loanMineElsewhere : JoinedLoan := ⟨1, 1, 5, 10, 100, none, 2, 7⟩

/-- A copy with two joined loans, both with a null `returned_at` (an
I1-violating snapshot the availability scan must tolerate). -/
def copyTwoActive : CopyRow := ⟨1, [⟨3, none⟩, ⟨4, none⟩]⟩

/-- A verifier stub accepting exactly the token `tok` as identity 1. -/
def verifyStub : String → VerifyResult :=
  fun t => if t == "tok" then .ok 1 (some "a@b") else .err

/-- A catalog stub knowing only the cleaned ISBN `12`. -/
def oracleStub : String → Option ExternalMeta :=
  fun s => if s == "12" then some ⟨some "T"⟩ else none

/-- A book store with no books and branch 1 owned by actor 5. -/
def dbNoBooks : CopiesDB := ⟨[], [⟨1, 5⟩], [], 10⟩

/-- A copy-creation request supplying only the hyphenated ISBN `1-2`. -/
def reqHyphen : CopyCreate := ⟨none, 1, some "1-2"⟩

/-- A copy-creation request supplying only the cleaned ISBN `12`. -/
def reqClean : CopyCreate := ⟨none, 1, some "12"⟩

/-! ## Helper lemmas -/

theorem mem_insertDesc {x y : JoinedLoan} {xs : List JoinedLoan} :
    x ∈ insertDesc y xs ↔ x = y ∨ x ∈ xs := by
  induction xs with
  | nil => simp [insertDesc]
  | cons z zs ih =>
    simp only [insertDesc]
    split
    · simp only [List.mem_cons, ih]
      tauto
    · simp only [List.mem_cons]

theorem mem_sortDesc {x : JoinedLoan} {xs : List JoinedLoan} :
    x ∈ sortDesc xs ↔ x ∈ xs := by
  induction xs with
  | nil => simp [sortDesc]
  | cons y ys ih => simp [sortDesc, mem_insertDesc, ih]

theorem length_insertDesc (y : JoinedLoan) (xs : List JoinedLoan) :
    (insertDesc y xs).length = xs.length + 1 := by
  induction xs with
  | nil => rfl
  | cons z zs ih =>
    simp only [insertDesc]
    split
    · simp [ih]
    · simp

theorem length_sortDesc (xs : List JoinedLoan) :
    (sortDesc xs).length = xs.length := by
  induction xs with
  | nil => rfl
  | cons y ys ih => simp [sortDesc, length_insertDesc, ih]

theorem mem_of_mem_pageRows {l : JoinedLoan} {f : LoanFilters}
    {rows : List JoinedLoan} (h : l ∈ pageRows f rows) : l ∈ rows :=
  mem_sortDesc.mp (List.mem_of_mem_drop (List.mem_of_mem_take h))

theorem mem_of_mem_filterByStatus {l : JoinedLoan} {s : Option String}
    {t : Nat} {xs : List JoinedLoan} (h : l ∈ filterByStatus s t xs) : l ∈ xs := by
  simp only [filterByStatus] at h
  split at h
  · exact (List.mem_filter.mp h).1
  · split at h
    · exact (List.mem_filter.mp h).1
    · split at h
      · exact (List.mem_filter.mp h).1
      · exact h

theorem mem_of_mem_branchFilter {l : JoinedLoan} {f : LoanFilters}
    {xs : List JoinedLoan} (h : l ∈ branchFilter f xs) : l ∈ xs := by
  simp only [branchFilter] at h
  split at h
  · exact (List.mem_filter.mp h).1
  · exact h

theorem mem_of_mem_ownerScope {l : JoinedLoan} {u : User}
    {xs : List JoinedLoan} (h : l ∈ ownerScope u xs) : l ∈ xs := by
  simp only [ownerScope] at h
  split at h
  · exact (List.mem_filter.mp h).1
  · exact h

theorem mem_ownerScope_of_mem_list_loans {u : User} {f : LoanFilters}
    {today : Nat} {rows : List JoinedLoan} {l : JoinedLoan}
    (h : l ∈ list_loans u f today rows) :
    l ∈ ownerScope u (pageRows f (roleQuery u f rows)) :=
  mem_of_mem_branchFilter (mem_of_mem_filterByStatus h)

theorem mem_roleQuery_of_mem_list_loans {u : User} {f : LoanFilters}
    {today : Nat} {rows : List JoinedLoan} {l : JoinedLoan}
    (h : l ∈ list_loans u f today rows) : l ∈ roleQuery u f rows :=
  mem_of_mem_pageRows (mem_of_mem_ownerScope (mem_ownerScope_of_mem_list_loans h))

/-! ## The claims -/

/-- C2 counterexample: a loan with a null return timestamp whose due
date (day 0) is before today (day 1) — so classified `overdue` by the
claim's rule — is nevertheless matched by the `active` status filter of
`list_loans`, contradicting "matched by the 'active' filter … exactly
when due_date >= today". -/
theorem filterByStatus_active_matches_overdue :
    overdueRow.returned_at = none ∧ overdueRow.due_date < 1
      ∧ overdueRow ∈ filterByStatus (some "active") 1 [overdueRow] := by
  decide

/-- C2 (amended): the status filters of `list_loans` keep, of the rows,
exactly: `returned` — those with a return timestamp; `overdue` — those
with a null return timestamp and `due_date < today` (so the boundary
`due_date = today` is not overdue); `active` — all those with a null
return timestamp, regardless of the due date (a superset of `overdue`,
not a disjoint class). -/
theorem filterByStatus_classification :
    ∀ (today : Nat) (loans : List JoinedLoan) (l : JoinedLoan),
      (l ∈ filterByStatus (some "returned") today loans ↔
        l ∈ loans ∧ l.returned_at ≠ none)
    ∧ (l ∈ filterByStatus (some "overdue") today loans ↔
        l ∈ loans ∧ (l.returned_at = none ∧ l.due_date < today))
    ∧ (l ∈ filterByStatus (some "active") today loans ↔
        l ∈ loans ∧ l.returned_at = none) := by
  intro today loans l
  have h1 : ((some "returned" : Option String) == some "active") = false := by decide
  have h2 : ((some "returned" : Option String) == some "overdue") = false := by decide
  have h3 : ((some "returned" : Option String) == some "returned") = true := by decide
  have h4 : ((some "overdue" : Option String) == some "active") = false := by decide
  have h5 : ((some "overdue" : Option String) == some "overdue") = true := by decide
  have h6 : ((some "active" : Option String) == some "active") = true := by decide
  refine ⟨?_, ?_, ?_⟩
  · simp [filterByStatus, h1, h2, h3, List.mem_filter, bne_iff_ne]
  · simp [filterByStatus, h4, h5, List.mem_filter, beq_iff_eq, decide_eq_true_iff]
  · simp [filterByStatus, h6, List.mem_filter, beq_iff_eq]

/-- C3 counterexample: an admin listing loans with a `borrower_id`
filter does not see all loans — the second stored loan (borrower 2) is
excluded when the filter names borrower 1, contradicting "for an admin,
all loans regardless of filters supplied". -/
theorem list_loans_admin_filtered :
    (⟨2, 1, 2, 10, 90, none, 1, 5⟩ : JoinedLoan) ∈ rowsTwoBorrowers
    ∧ (⟨2, 1, 2, 10, 90, none, 1, 5⟩ : JoinedLoan)
        ∉ list_loans ⟨9, "admin"⟩ ⟨some 1, none, none, 50, 0⟩ 0 rowsTwoBorrowers := by
  decide

/-- C3 (amended): `list_loans` is role-scoped as claimed for borrowers
(every returned loan has the actor's `borrower_id`) and branch owners
(every returned loan's copy's branch owner is the actor); an admin's
results are not restricted by role, and with no filters supplied,
offset 0 and a limit covering the rows, an admin sees every loan — but
supplied filters (`borrower_id`, `branch_id`, `status`) and pagination
restrict an admin's results like anyone else's. -/
theorem list_loans_scoped :
    (∀ (u : User) (f : LoanFilters) (today : Nat) (rows : List JoinedLoan)
        (l : JoinedLoan), u.role = "borrower" →
        l ∈ list_loans u f today rows → l.borrower_id = u.id)
    ∧ (∀ (u : User) (f : LoanFilters) (today : Nat) (rows : List JoinedLoan)
        (l : JoinedLoan), u.role = "branch_owner" →
        l ∈ list_loans u f today rows → l.branch_owner_id = u.id)
    ∧ (∀ (u : User) (f : LoanFilters) (today : Nat) (rows : List JoinedLoan)
        (l : JoinedLoan), u.role = "admin" →
        f.borrower_id = none → f.branch_id = none → f.status = none →
        f.offset = 0 → rows.length ≤ f.limit →
        l ∈ rows → l ∈ list_loans u f today rows) := by
  refine ⟨?_, ?_, ?_⟩
  · intro u f today rows l hrole h
    have hq := mem_roleQuery_of_mem_list_loans h
    rw [roleQuery, hrole] at hq
    simp [List.mem_filter] at hq
    exact hq.2
  · intro u f today rows l hrole h
    have hs := mem_ownerScope_of_mem_list_loans h
    rw [ownerScope, hrole] at hs
    simp [List.mem_filter] at hs
    exact hs.2
  · intro u f today rows l hrole hbor hbr hst hoff hlim hl
    have hq : roleQuery u f rows = rows := by
      rw [roleQuery, hrole, hbor]
      simp
    have hp : pageRows f (roleQuery u f rows) = sortDesc rows := by
      rw [hq, pageRows, hoff, List.drop_zero,
        List.take_of_length_le (by rw [length_sortDesc]; exact hlim)]
    have hsc : ownerScope u (sortDesc rows) = sortDesc rows := by
      rw [ownerScope, hrole]
      simp
    have hbf : branchFilter f (sortDesc rows) = sortDesc rows := by
      rw [branchFilter, hbr]
    have hfs : filterByStatus f.status today (sortDesc rows) = sortDesc rows := by
      rw [filterByStatus, hst]
      simp
    rw [list_loans, hp, hsc, hbf, hfs]
    exact mem_sortDesc.mpr hl

/-- C4 counterexample: a `branch_owner`-role actor (id 5) reading a loan
they borrowed at a branch owned by someone else (owner 7) succeeds,
contradicting "succeeds for a branch_owner actor only when the loan's
copy's branch owner id equals the actor's id" — the code's access test
checks ids irrespective of the actor's role. -/
theorem get_loan_branch_owner_cross_access :
    get_loan ⟨5, "branch_owner"⟩ 1 [loanMineElsewhere] = .ok loanMineElsewhere
    ∧ loanMineElsewhere.branch_owner_id ≠ 5 :=
  ⟨rfl, by decide⟩

/-- C4 (amended): `get_loan` on an existing loan succeeds exactly when
the actor's id is the loan's `borrower_id`, or the actor's id is the
copy's branch owner id, or the actor's role is `admin` — regardless of
which role the actor holds; in every other case it fails with a 403,
and a missing loan is a 404. -/
theorem get_loan_access :
    (∀ (u : User) (lid : Nat) (rows : List JoinedLoan) (l : JoinedLoan),
      rows.find? (fun x => x.id == lid) = some l →
        (get_loan u lid rows = .ok l ↔
          (l.borrower_id = u.id ∨ l.branch_owner_id = u.id ∨ u.role = "admin"))
        ∧ (l.borrower_id ≠ u.id → l.branch_owner_id ≠ u.id → u.role ≠ "admin" →
            get_loan u lid rows = .error ⟨403, "Access denied"⟩))
    ∧ (∀ (u : User) (lid : Nat) (rows : List JoinedLoan),
        rows.find? (fun x => x.id == lid) = none →
          get_loan u lid rows = .error ⟨404, "Loan not found"⟩) := by
  constructor
  · intro u lid rows l hfind
    constructor
    · rw [get_loan, hfind]
      by_cases hp : (l.borrower_id = u.id ∨ l.branch_owner_id = u.id ∨ u.role = "admin")
      · have hc : (l.borrower_id == u.id || l.branch_owner_id == u.id
            || u.role == "admin") = true := by
          rcases hp with h | h | h <;> simp [h]
        simp [hc, hp]
      · have hc : (l.borrower_id == u.id || l.branch_owner_id == u.id
            || u.role == "admin") = false := by
          push_neg at hp
          simp [hp.1, hp.2.1, hp.2.2]
        simp [hc, hp]
    · intro h1 h2 h3
      rw [get_loan, hfind]
      have hc : (l.borrower_id == u.id || l.branch_owner_id == u.id
          || u.role == "admin") = false := by
        simp [h1, h2, h3]
      simp [hc]
  · intro u lid rows hfind
    rw [get_loan, hfind]

/-- C1: for every store whose copy already has a loan with a null return
timestamp, a second `create_loan` on that copy — by an actor passing the
role gate and authorized for the branch, with an existing borrower —
fails with the 409 `ConflictError` ("This copy is already on loan") and
returns the store unchanged: no loan row is inserted. -/
theorem create_loan_conflict (u : User) (body : LoanCreate) (db : DB)
    (c : Copy) (br : Branch) (l : Loan)
    (hrole : u.role = "branch_owner" ∨ u.role = "admin")
    (hc : db.copies.find? (fun x => x.id == body.copy_id) = some c)
    (hb : db.branches.find? (fun b => b.id == c.branch_id) = some br)
    (hown : br.owner_id = u.id ∨ u.role = "admin")
    (_hprof : body.borrower_id ∈ db.profiles)
    (hl : l ∈ db.loans) (hcid : l.copy_id = body.copy_id)
    (hret : l.returned_at = none) :
    create_loan_endpoint u body db
      = (.error ⟨409, "This copy is already on loan"⟩, db) := by
  have hgate : require_branch_owner u = .ok u := by
    rcases hrole with h | h <;> simp [require_branch_owner, h]
  have hmem : l ∈ db.loans.filter
      (fun x => x.copy_id == body.copy_id && x.returned_at == none) := by
    rw [List.mem_filter]
    exact ⟨hl, by simp [hcid, hret]⟩
  have hactive : (db.loans.filter
      (fun x => x.copy_id == body.copy_id && x.returned_at == none)).isEmpty = false := by
    cases hE : (db.loans.filter
        (fun x => x.copy_id == body.copy_id && x.returned_at == none)).isEmpty with
    | false => rfl
    | true => exact absurd (List.isEmpty_iff.mp hE) (List.ne_nil_of_mem hmem)
  have hownb : (br.owner_id != u.id && u.role != "admin") = false := by
    rcases hown with h | h <;> simp [h]
  simp [create_loan_endpoint, hgate, create_loan, hc, hb, hownb, hactive]

/-- C1 witness: in `dbConflict` (copy 1 with an active loan, branch
owned by the caller, borrower profile 2 present) the second checkout is
the 409 conflict and the store is unchanged. -/
theorem create_loan_conflict_witness :
    create_loan_endpoint uOwner reqLoan dbConflict
      = (.error ⟨409, "This copy is already on loan"⟩, dbConflict) :=
  create_loan_conflict uOwner reqLoan dbConflict ⟨1, 1⟩ ⟨1, 5⟩ ⟨0, 1, 9, 5, none, none⟩
    (Or.inl rfl) rfl rfl (Or.inl rfl) (by decide) (by decide) rfl rfl

/-- C5: `return_loan` on a loan whose return timestamp is already set
fails with the 400 "Loan already returned" error (the code's
`AlreadyReturnedError`) and returns the store unchanged — in particular
the timestamp set by the first successful return is untouched. -/
theorem return_loan_already_returned (u : User) (loan_id : Nat)
    (notes : Option String) (now : Nat) (db : DB) (loan : Loan) (t : Nat)
    (hrole : u.role = "branch_owner" ∨ u.role = "admin")
    (hfind : db.loans.find? (fun l => l.id == loan_id) = some loan)
    (hret : loan.returned_at = some t) :
    return_loan_endpoint u loan_id notes now db
      = (.error ⟨400, "Loan already returned"⟩, db) := by
  have hgate : require_branch_owner u = .ok u := by
    rcases hrole with h | h <;> simp [require_branch_owner, h]
  have hr : (loan.returned_at != none) = true := by simp [hret]
  simp [return_loan_endpoint, hgate, return_loan, hfind, hr]

/-- C5 witness: in `dbReturned` (loan 0 returned at instant 3) a second
return attempt at instant 7 is the 400 error and the store — including
the stored timestamp 3 — is unchanged. -/
theorem return_loan_already_returned_witness :
    return_loan_endpoint uOwner 0 none 7 dbReturned
      = (.error ⟨400, "Loan already returned"⟩, dbReturned) :=
  return_loan_already_returned uOwner 0 none 7 dbReturned ⟨0, 1, 9, 5, some 3, none⟩ 3
    (Or.inl rfl) rfl rfl

/-- C10: in `return_loan` the already-returned check precedes the
branch-ownership check: an actor passing the `branch_owner`/`admin` role
gate who does not own the copy's branch still receives the 400 "Loan
already returned" error — not the 403 — when the loan is already
returned. -/
theorem return_loan_returned_check_first (u : User) (loan_id : Nat)
    (notes : Option String) (now : Nat) (db : DB) (loan : Loan) (t : Nat)
    (c : Copy) (br : Branch)
    (hrole : u.role = "branch_owner" ∨ u.role = "admin")
    (hfind : db.loans.find? (fun l => l.id == loan_id) = some loan)
    (hret : loan.returned_at = some t)
    (_hcopy : db.copies.find? (fun x => x.id == loan.copy_id) = some c)
    (_hbr : db.branches.find? (fun b => b.id == c.branch_id) = some br)
    (_hnotown : br.owner_id ≠ u.id) :
    return_loan_endpoint u loan_id notes now db
      = (.error ⟨400, "Loan already returned"⟩, db) := by
  have hgate : require_branch_owner u = .ok u := by
    rcases hrole with h | h <;> simp [require_branch_owner, h]
  have hr : (loan.returned_at != none) = true := by simp [hret]
  simp [return_loan_endpoint, hgate, return_loan, hfind, hr]

/-- C10 witness: in `dbReturnedForeign` (loan 0 already returned, branch
owned by actor 7) the branch-owner actor 5, who does not own the branch,
still gets the 400 already-returned error rather than a 403. -/
theorem return_loan_returned_check_first_witness :
    return_loan_endpoint uOwner 0 none 7 dbReturnedForeign
      = (.error ⟨400, "Loan already returned"⟩, dbReturnedForeign) :=
  return_loan_returned_check_first uOwner 0 none 7 dbReturnedForeign
    ⟨0, 1, 9, 5, some 3, none⟩ 3 ⟨1, 1⟩ ⟨1, 7⟩
    (Or.inl rfl) rfl rfl rfl rfl (by decide)

/-- C6: the computed `is_available` is true iff no joined loan of the
copy has a null return timestamp; when several do (as in
`copyTwoActive`), the first encountered is used as the current loan and
nothing is raised; and the `available` query parameter is an
order-preserving filter (a sublist of the annotated list) applied after
the per-copy computation, leaving every kept copy's computed flag
intact; with no parameter the annotated list is returned as is. -/
theorem copy_availability_spec :
    (∀ c : CopyRow, copy_is_available c = true ↔ ∀ l ∈ c.loans, l.returned_at ≠ none)
    ∧ (∀ (c : CopyRow) (l : CopyLoan) (rest : List CopyLoan),
        c.loans = l :: rest → l.returned_at = none → copy_active_loan c = some l)
    ∧ (copy_active_loan copyTwoActive = some ⟨3, none⟩
        ∧ copy_is_available copyTwoActive = false)
    ∧ (∀ (b : Bool) (copies : List CopyRow),
        (list_copies_availability (some b) copies).Sublist (annotate_copies copies)
        ∧ ∀ p ∈ list_copies_availability (some b) copies,
            p.2 = copy_is_available p.1 ∧ p.2 = b)
    ∧ (∀ copies : List CopyRow,
        list_copies_availability none copies = annotate_copies copies) := by
  refine ⟨?_, ?_, by decide, ?_, fun copies => rfl⟩
  · intro c
    simp [copy_is_available, copy_active_loan, Option.isNone_iff_eq_none,
      List.find?_eq_none]
  · intro c l rest hc hl
    rw [copy_active_loan, hc]
    exact List.find?_cons_of_pos _ (by simp [hl])
  · intro b copies
    constructor
    · simp only [list_copies_availability]
      exact List.filter_sublist _
    · intro p hp
      simp only [list_copies_availability, List.mem_filter, annotate_copies,
        List.mem_map] at hp
      obtain ⟨⟨c, hc, rfl⟩, hb⟩ := hp
      exact ⟨rfl, by simpa using hb⟩

/-- C7 counterexample: `create_loan`'s insert is not a conditional
write. On `dbFree` (copy 1 free) the pre-insert check passes; two racing
calls that both pass it before either insert runs, then both insert,
leave two loans with a null return timestamp on copy 1 — the
at-most-one-active-loan invariant does not survive the race. -/
theorem create_loan_race_two_active :
    create_loan_check uOwner reqLoan dbFree = none
    ∧ activeCount (create_loan_insert reqLoan
        (create_loan_insert reqLoan dbFree).2).2 1 = 2 := by
  decide

/-- C7 (amended): `create_loan` enforces the invariant by a
read-then-write check, not a conditional write: it equals its pre-insert
read checks followed, when they all pass, by an insert — and that insert
is unconditional, always adding one more active loan for the copy
whatever the store holds, so the 409 `ConflictError` arises only from
the pre-insert read and the invariant is not guaranteed under concurrent
calls racing on the same copy. -/
theorem create_loan_read_then_write :
    (∀ (u : User) (body : LoanCreate) (db : DB),
      create_loan u body db =
        match create_loan_check u body db with
        | some e => (.error e, db)
        | none => (.ok (create_loan_insert body db).1, (create_loan_insert body db).2))
    ∧ (∀ (body : LoanCreate) (db : DB),
        activeCount (create_loan_insert body db).2 body.copy_id
          = activeCount db body.copy_id + 1) := by
  constructor
  · intro u body db
    unfold create_loan create_loan_check
    repeat' split
    all_goals simp_all
  · intro body db
    unfold activeCount create_loan_insert
    simp [List.filter_append]

/-- C8: a credential the external verifier accepts always yields an
authenticated actor; when no profile row exists for the verified
identity, the resolver still returns an authenticated actor with role
`borrower` instead of failing with a 401 `AuthenticationError`. -/
theorem get_current_user_missing_profile
    (verify : String → VerifyResult) (profiles : List Profile)
    (auth : String) (uid : Nat) (email : Option String)
    (hb : isBearer auth.data = true)
    (hv : verify (bearerToken auth) = .ok uid email)
    (hp : profiles.find? (fun p => p.id == uid) = none) :
    get_current_user verify profiles (some auth)
      = .ok (some ⟨uid, email, "borrower", none⟩) := by
  simp [get_current_user, hb, hv, hp]

/-- C8 witness: the stub verifier accepts `Bearer tok` as identity 1,
the profile store is empty, and the resolver authenticates the actor
with role `borrower`. -/
theorem get_current_user_missing_profile_witness :
    get_current_user verifyStub [] (some "Bearer tok")
      = .ok (some ⟨1, some "a@b", "borrower", none⟩) :=
  get_current_user_missing_profile verifyStub [] "Bearer tok" 1 (some "a@b")
    (by decide) (by decide) rfl

/-- C9 counterexample: with the hyphenated ISBN `1-2` (whose cleaned
form `12` the catalog knows), the first `create_copy` invokes the lookup
once and stores the Book under the cleaned ISBN `12`; the second
`create_copy` with the very same ISBN then misses the stored row (the
existence check uses the raw string `1-2`), invokes the lookup again,
and inserts a second Book row with ISBN `12` — a duplicate, contradicting
"finds the existing Book … without invoking the lookup or creating a
duplicate Book row". -/
theorem create_copy_hyphen_isbn_duplicates :
    (create_copy oracleStub uOwner reqHyphen dbNoBooks).2.2 = 1
    ∧ (create_copy oracleStub uOwner reqHyphen
        ((create_copy oracleStub uOwner reqHyphen dbNoBooks).2.1)).2.2 = 1
    ∧ ((create_copy oracleStub uOwner reqHyphen
        ((create_copy oracleStub uOwner reqHyphen dbNoBooks).2.1)).2.1.books.filter
        (fun b => b.isbn == some "12")).length = 2 := by
  decide

/-- C9 (amended): when the supplied ISBN equals its normalized form (no
hyphens or spaces), `create_copy` with only that ISBN and no matching
Book invokes the enrichment lookup exactly once and appends one Book row
built from its metadata; a second `create_copy` with the same ISBN then
invokes the lookup zero times, appends no Book row, and succeeds linking
the new copy to the existing Book. -/
theorem create_copy_isbn_enrichment (oracle : String → Option ExternalMeta)
    (u : User) (body : CopyCreate) (db : CopiesDB) (i : String) (m : ExternalMeta)
    (br : Branch)
    (hbid : body.book_id = none) (hisbn : body.isbn = some i)
    (hnorm : normalize_isbn i = i)
    (ho : oracle i = some m)
    (hnone : db.books.filter (fun b => b.isbn == some i) = [])
    (hbr : db.branches.find? (fun b => b.id == body.branch_id) = some br)
    (hown : br.owner_id = u.id ∨ u.role = "admin") :
    (create_copy oracle u body db).2.2 = 1
    ∧ (create_copy oracle u body db).2.1.books
        = db.books ++ [⟨db.next_id, some i, m.title⟩]
    ∧ (create_copy oracle u body ((create_copy oracle u body db).2.1)).2.2 = 0
    ∧ (create_copy oracle u body ((create_copy oracle u body db).2.1)).2.1.books
        = (create_copy oracle u body db).2.1.books
    ∧ ∃ r, (create_copy oracle u body ((create_copy oracle u body db).2.1)).1 = .ok r
          ∧ r.book_id = db.next_id := by
  have hlu : lookup_isbn oracle i = some ⟨0, some i, m.title⟩ := by
    simp [lookup_isbn, hnorm, ho]
  have hownb : (br.owner_id != u.id && u.role != "admin") = false := by
    rcases hown with h | h <;> simp [h]
  have h1 : create_copy oracle u body db =
      (.ok ⟨db.next_id + 1, db.next_id, body.branch_id, u.id⟩,
       { db with books := db.books ++ [⟨db.next_id, some i, m.title⟩],
                 copies := db.copies ++ [⟨db.next_id + 1, db.next_id, body.branch_id, u.id⟩],
                 next_id := db.next_id + 2 }, 1) := by
    simp [create_copy, hbid, hisbn, hnone, hlu, hbr, hownb]
  have hfilter2 : (db.books ++ [(⟨db.next_id, some i, m.title⟩ : Book)]).filter
      (fun b => b.isbn == some i) = [⟨db.next_id, some i, m.title⟩] := by
    rw [List.filter_append, hnone]
    simp
  have h2 : create_copy oracle u body
      { db with books := db.books ++ [⟨db.next_id, some i, m.title⟩],
                copies := db.copies ++ [⟨db.next_id + 1, db.next_id, body.branch_id, u.id⟩],
                next_id := db.next_id + 2 } =
      (.ok ⟨db.next_id + 2, db.next_id, body.branch_id, u.id⟩,
       { db with books := db.books ++ [⟨db.next_id, some i, m.title⟩],
                 copies := (db.copies ++ [⟨db.next_id + 1, db.next_id, body.branch_id, u.id⟩])
                   ++ [⟨db.next_id + 2, db.next_id, body.branch_id, u.id⟩],
                 next_id := db.next_id + 3 }, 0) := by
    simp [create_copy, hbid, hisbn, hfilter2, hbr, hownb]
  rw [h1]
  refine ⟨rfl, rfl, ?_, ?_, ?_⟩
  · rw [h2]
  · rw [h2]
  · exact ⟨⟨db.next_id + 2, db.next_id, body.branch_id, u.id⟩, by rw [h2], rfl⟩

/-- C9 witness: with the already-normalized ISBN `12` over the empty
book store, the first call looks up once and creates the Book; the
second call reuses it with no lookup and no duplicate. -/
theorem create_copy_isbn_enrichment_witness :
    (create_copy oracleStub uOwner reqClean dbNoBooks).2.2 = 1
    ∧ (create_copy oracleStub uOwner reqClean dbNoBooks).2.1.books
        = dbNoBooks.books ++ [⟨dbNoBooks.next_id, some "12", some "T"⟩]
    ∧ (create_copy oracleStub uOwner reqClean
        ((create_copy oracleStub uOwner reqClean dbNoBooks).2.1)).2.2 = 0
    ∧ (create_copy oracleStub uOwner reqClean
        ((create_copy oracleStub uOwner reqClean dbNoBooks).2.1)).2.1.books
        = (create_copy oracleStub uOwner reqClean dbNoBooks).2.1.books
    ∧ ∃ r, (create_copy oracleStub uOwner reqClean
          ((create_copy oracleStub uOwner reqClean dbNoBooks).2.1)).1 = .ok r
          ∧ r.book_id = dbNoBooks.next_id :=
  create_copy_isbn_enrichment oracleStub uOwner reqClean dbNoBooks "12" ⟨some "T"⟩
    ⟨1, 5⟩ rfl rfl (by decide) (by decide) rfl rfl (Or.inl rfl)

end Library
